import Mathlib

/-
Verification of the vello_cpu_ffi boundary layer (SparseStrips repository).

This file gives a shallow embedding of the FFI boundary code in
src/vello_cpu_ffi/src: the status codes and enum tables (types.rs), the
thread-local last-error slot and the panic-catching wrappers (error.rs),
and the guarded entry points of context.rs, recording.rs, pixmap.rs and
image.rs that the claims are about.

Modelling conventions:
- A raw pointer argument is an Option carrying the pointed-to value;
  none stands for a null pointer.
- The per-thread last-error slot is an Option String; each theorem talks
  about the slot of the single calling thread, matching the thread_local
  storage in error.rs.
- Rust f64 and f32 fields that the boundary only passes through are
  carried as rationals; the one place arithmetic on them matters (the
  image-opacity check in image.rs) is exact in f32 on the inputs used,
  which the doc comments note at the relevant definitions.
- A body that may panic is modelled with an explicit Outcome value; the
  downcast logic of the ffi_catch macro in error.rs is mirrored by
  PanicPayload and panicMsg. An entry point that wraps its body in
  ffi_catch can never let the panic out; an entry point that does not
  (the recording.rs family) returns an Except whose error case is the
  panic unwinding across the extern boundary.
- The wrapped rendering engine (vello_cpu, vello_common, kurbo, peniko)
  is external to this repository; its operations appear either as
  explicit function arguments of the embedded entry point (the render
  oracle of render_to_buffer, the strip counts produced by
  prepare_recording) or as pure state updates on the modelled
  RenderContextState, which is all the boundary code observes of them.
-/

/-! ## Status codes (types.rs lines 8-16) -/

def VELLO_OK : Int := 0

def VELLO_ERROR_NULL_POINTER : Int := -1

def VELLO_ERROR_INVALID_HANDLE : Int := -2

def VELLO_ERROR_RENDER_FAILED : Int := -3

def VELLO_ERROR_OUT_OF_MEMORY : Int := -4

def VELLO_ERROR_INVALID_PARAMETER : Int := -5

def VELLO_ERROR_PNG_DECODE : Int := -6

def VELLO_ERROR_PNG_ENCODE : Int := -7

/-! ## Message strings used by the boundary code -/

def msgNullPointer : String := "Null pointer"

def msgNullContext : String := "Null context pointer"

def msgNullRecording : String := "Null recording pointer"

def msgGradientStops : String := "Gradient requires at least 2 color stops"

def msgBufferTooSmall : String := "Buffer too small"

def msgImageOpacity : String := "Image opacity is not supported yet"

def msgOutOfBounds : String := "Coordinates out of bounds"

def msgUnknownPanicked : String := "Unknown panic occurred"

def msgPanicPrefixed : String := "Panic: "

/-! ## The thread-local last-error slot (error.rs lines 10-39) -/

/-- True when the string contains a NUL character. CString::new in Rust
fails exactly when the byte sequence contains a NUL byte, which for a
Rust String happens exactly when it contains the NUL character. -/
def containsNul (s : String) : Bool :=
  s.toList.any (fun c => c == Char.ofNat 0)

/-- Embedding of set_last_error (error.rs lines 14-22). The message is
first run through CString::new; when that fails, meaning the message
contains a NUL byte, the slot is silently left unchanged. -/
def set_last_error (msg : String) (slot : Option String) : Option String :=
  if containsNul msg then slot else some msg

/-- Embedding of vello_get_last_error (error.rs lines 25-31): returns the
current slot contents, none standing for the null pointer returned when
no message is pending. -/
def vello_get_last_error (slot : Option String) : Option String :=
  slot

/-- Embedding of vello_clear_last_error (error.rs lines 33-39). -/
def vello_clear_last_error : Option String → Option String :=
  fun _ => none

/-! ## Panic outcomes and the catching wrappers (error.rs lines 41-81) -/

/-- The payload of a Rust panic as the ffi_catch macros see it: either a
payload downcastable to a str or String carrying a message, or any other
payload. -/
inductive PanicPayload where
  | strMsg (s : String)
  | other
deriving DecidableEq

/-- The message extraction performed by both catch macros: the payload
message when the downcast succeeds, else a generic message. -/
def panicMsg : PanicPayload → String
  | .strMsg s => s
  | .other => msgUnknownPanicked

/-- Result of running a guarded body: normal completion or a panic. -/
inductive Outcome (α : Type) where
  | ok (value : α)
  | panicked (payload : PanicPayload)

/-- Embedding of the ffi_catch macro (error.rs lines 42-60): a normal
completion passes through the body result, which already carries the
status and the slot as left by the body; a panic is converted to the
render-failed status and the slot receives the panic message behind the
Panic: marker. -/
def ffi_catch (slot : Option String) (body : Outcome (Int × Option String)) :
    Int × Option String :=
  match body with
  | .ok r => r
  | .panicked p =>
      (VELLO_ERROR_RENDER_FAILED, set_last_error (msgPanicPrefixed ++ panicMsg p) slot)

/-! ## Boundary enums and their integer tags (types.rs lines 86-210) -/

/-- Render mode enumeration (types.rs lines 87-92). -/
inductive VelloRenderMode where
  | OptimizeSpeed
  | OptimizeQuality
deriving DecidableEq, Fintype

/-- Boundary integer tag of VelloRenderMode as declared in types.rs. -/
def VelloRenderMode.tag : VelloRenderMode → Nat
  | .OptimizeSpeed => 0
  | .OptimizeQuality => 1

/-- SIMD level enumeration (types.rs lines 94-105). -/
inductive VelloSimdLevel where
  | Fallback
  | Sse2
  | Sse42
  | Avx
  | Avx2
  | Avx512
  | Neon
deriving DecidableEq, Fintype

/-- Boundary integer tag of VelloSimdLevel as declared in types.rs. -/
def VelloSimdLevel.tag : VelloSimdLevel → Nat
  | .Fallback => 0
  | .Sse2 => 1
  | .Sse42 => 2
  | .Avx => 3
  | .Avx2 => 4
  | .Avx512 => 5
  | .Neon => 6

/-- Line join style (types.rs lines 107-114). -/
inductive VelloJoin where
  | Bevel
  | Miter
  | Round
deriving DecidableEq, Fintype

/-- Boundary integer tag of VelloJoin as declared in types.rs. -/
def VelloJoin.tag : VelloJoin → Nat
  | .Bevel => 0
  | .Miter => 1
  | .Round => 2

/-- Line cap style (types.rs lines 116-123). -/
inductive VelloCap where
  | Butt
  | Square
  | Round
deriving DecidableEq, Fintype

/-- Boundary integer tag of VelloCap as declared in types.rs. -/
def VelloCap.tag : VelloCap → Nat
  | .Butt => 0
  | .Square => 1
  | .Round => 2

/-- Fill rule (types.rs lines 125-131). -/
inductive VelloFillRule where
  | NonZero
  | EvenOdd
deriving DecidableEq, Fintype

/-- Boundary integer tag of VelloFillRule as declared in types.rs. -/
def VelloFillRule.tag : VelloFillRule → Nat
  | .NonZero => 0
  | .EvenOdd => 1

/-- Blend mix mode (types.rs lines 133-153). -/
inductive VelloMix where
  | Normal
  | Multiply
  | Screen
  | Overlay
  | Darken
  | Lighten
  | ColorDodge
  | ColorBurn
  | HardLight
  | SoftLight
  | Difference
  | Exclusion
  | Hue
  | Saturation
  | Color
  | Luminosity
deriving DecidableEq, Fintype

/-- Boundary integer tag of VelloMix as declared in types.rs. -/
def VelloMix.tag : VelloMix → Nat
  | .Normal => 0
  | .Multiply => 1
  | .Screen => 2
  | .Overlay => 3
  | .Darken => 4
  | .Lighten => 5
  | .ColorDodge => 6
  | .ColorBurn => 7
  | .HardLight => 8
  | .SoftLight => 9
  | .Difference => 10
  | .Exclusion => 11
  | .Hue => 12
  | .Saturation => 13
  | .Color => 14
  | .Luminosity => 15

/-- Blend compose mode (types.rs lines 155-173). -/
inductive VelloCompose where
  | Clear
  | Copy
  | Dest
  | SrcOver
  | DestOver
  | SrcIn
  | DestIn
  | SrcOut
  | DestOut
  | SrcAtop
  | DestAtop
  | Xor
  | Plus
  | PlusLighter
deriving DecidableEq, Fintype

/-- Boundary integer tag of VelloCompose as declared in types.rs. -/
def VelloCompose.tag : VelloCompose → Nat
  | .Clear => 0
  | .Copy => 1
  | .Dest => 2
  | .SrcOver => 3
  | .DestOver => 4
  | .SrcIn => 5
  | .DestIn => 6
  | .SrcOut => 7
  | .DestOut => 8
  | .SrcAtop => 9
  | .DestAtop => 10
  | .Xor => 11
  | .Plus => 12
  | .PlusLighter => 13

/-- Gradient extend mode (types.rs lines 194-201). -/
inductive VelloExtend where
  | Pad
  | Repeat
  | Reflect
deriving DecidableEq, Fintype

/-- Boundary integer tag of VelloExtend as declared in types.rs. -/
def VelloExtend.tag : VelloExtend → Nat
  | .Pad => 0
  | .Repeat => 1
  | .Reflect => 2

/-- Image quality mode (types.rs lines 203-210). -/
inductive VelloImageQuality where
  | Low
  | Medium
  | High
deriving DecidableEq, Fintype

/-- Boundary integer tag of VelloImageQuality as declared in types.rs. -/
def VelloImageQuality.tag : VelloImageQuality → Nat
  | .Low => 0
  | .Medium => 1
  | .High => 2

/-! ## Internal engine enums (kurbo and peniko types of the wrapped engine)

These mirror the external enum types that the boundary converts to and
from; the conversion functions below them are the ones embedded from the
repository source. -/

/-- Internal kurbo join style. -/
inductive KurboJoin where
  | Bevel
  | Miter
  | Round
deriving DecidableEq, Fintype

/-- Internal kurbo cap style. -/
inductive KurboCap where
  | Butt
  | Square
  | Round
deriving DecidableEq, Fintype

/-- Internal peniko fill rule. -/
inductive PenikoFill where
  | NonZero
  | EvenOdd
deriving DecidableEq, Fintype

/-- Internal peniko blend mix. -/
inductive PenikoMix where
  | Normal
  | Multiply
  | Screen
  | Overlay
  | Darken
  | Lighten
  | ColorDodge
  | ColorBurn
  | HardLight
  | SoftLight
  | Difference
  | Exclusion
  | Hue
  | Saturation
  | Color
  | Luminosity
deriving DecidableEq, Fintype

/-- Internal peniko blend compose. -/
inductive PenikoCompose where
  | Clear
  | Copy
  | Dest
  | SrcOver
  | DestOver
  | SrcIn
  | DestIn
  | SrcOut
  | DestOut
  | SrcAtop
  | DestAtop
  | Xor
  | Plus
  | PlusLighter
deriving DecidableEq, Fintype

/-- Internal peniko gradient extend. -/
inductive PenikoExtend where
  | Pad
  | Repeat
  | Reflect
deriving DecidableEq, Fintype

/-- Internal peniko image quality. -/
inductive PenikoImageQuality where
  | Low
  | Medium
  | High
deriving DecidableEq, Fintype

/-- Internal vello_cpu render mode. -/
inductive RenderMode where
  | OptimizeSpeed
  | OptimizeQuality
deriving DecidableEq, Fintype

/-! ## Enum conversions embedded from the repository source -/

/-- Boundary join to kurbo join, the match in
vello_render_context_set_stroke (context.rs lines 358-362). -/
def joinToKurbo : VelloJoin → KurboJoin
  | .Bevel => .Bevel
  | .Miter => .Miter
  | .Round => .Round

/-- Kurbo join back to boundary join, the match in
vello_render_context_get_stroke (context.rs lines 619-623). -/
def kurboJoinToVello : KurboJoin → VelloJoin
  | .Bevel => .Bevel
  | .Miter => .Miter
  | .Round => .Round

/-- Boundary cap to kurbo cap, the match in
vello_render_context_set_stroke (context.rs lines 364-368). -/
def capToKurbo : VelloCap → KurboCap
  | .Butt => .Butt
  | .Square => .Square
  | .Round => .Round

/-- Kurbo cap back to boundary cap, the match in
vello_render_context_get_stroke (context.rs lines 625-629). -/
def kurboCapToVello : KurboCap → VelloCap
  | .Butt => .Butt
  | .Square => .Square
  | .Round => .Round

/-- Boundary fill rule to peniko fill, the match in
vello_render_context_set_fill_rule (context.rs lines 403-406). -/
def fillRuleToPeniko : VelloFillRule → PenikoFill
  | .NonZero => .NonZero
  | .EvenOdd => .EvenOdd

/-- Peniko fill back to boundary fill rule, the match in
vello_render_context_get_fill_rule (context.rs lines 652-655). -/
def penikoFillToVello : PenikoFill → VelloFillRule
  | .NonZero => .NonZero
  | .EvenOdd => .EvenOdd

/-- Boundary mix to peniko mix, the match in
vello_render_context_push_blend_layer (context.rs lines 491-508). -/
def mixToPeniko : VelloMix → PenikoMix
  | .Normal => .Normal
  | .Multiply => .Multiply
  | .Screen => .Screen
  | .Overlay => .Overlay
  | .Darken => .Darken
  | .Lighten => .Lighten
  | .ColorDodge => .ColorDodge
  | .ColorBurn => .ColorBurn
  | .HardLight => .HardLight
  | .SoftLight => .SoftLight
  | .Difference => .Difference
  | .Exclusion => .Exclusion
  | .Hue => .Hue
  | .Saturation => .Saturation
  | .Color => .Color
  | .Luminosity => .Luminosity

/-- Boundary compose to peniko compose, the match in
vello_render_context_push_blend_layer (context.rs lines 510-525). -/
def composeToPeniko : VelloCompose → PenikoCompose
  | .Clear => .Clear
  | .Copy => .Copy
  | .Dest => .Dest
  | .SrcOver => .SrcOver
  | .DestOver => .DestOver
  | .SrcIn => .SrcIn
  | .DestIn => .DestIn
  | .SrcOut => .SrcOut
  | .DestOut => .DestOut
  | .SrcAtop => .SrcAtop
  | .DestAtop => .DestAtop
  | .Xor => .Xor
  | .Plus => .Plus
  | .PlusLighter => .PlusLighter

/-- Boundary extend to peniko extend, the match appearing in each
gradient constructor (context.rs lines 166-170, 218-222, 271-275) and in
vello_image_new_from_pixmap (image.rs lines 37-41). -/
def extendToPeniko : VelloExtend → PenikoExtend
  | .Pad => .Pad
  | .Repeat => .Repeat
  | .Reflect => .Reflect

/-- Boundary image quality to peniko quality, the match in
vello_image_new_from_pixmap (image.rs lines 49-53). -/
def qualityToPeniko : VelloImageQuality → PenikoImageQuality
  | .Low => .Low
  | .Medium => .Medium
  | .High => .High

/-- Internal render mode to boundary render mode, the From impl in
types.rs lines 235-242. -/
def renderModeToVello : RenderMode → VelloRenderMode
  | .OptimizeSpeed => .OptimizeSpeed
  | .OptimizeQuality => .OptimizeQuality

/-- Boundary render mode to internal render mode, the From impl in
types.rs lines 244-251. -/
def velloToRenderMode : VelloRenderMode → RenderMode
  | .OptimizeSpeed => .OptimizeSpeed
  | .OptimizeQuality => .OptimizeQuality

/-! ## The SIMD level conversions (types.rs lines 253-287)

The internal vello_cpu::Level is a capability value of the external
engine; its exact variant set is platform dependent, so Level here
carries one constructor per tier the boundary can name, plus the debug
name each renders to, lowercased, as used by the From impl in types.rs.
The possibly failing runtime detection vello_cpu::Level::try_detect is a
platform input, so it appears as an explicit Option Level argument. -/

/-- Internal engine SIMD capability level. -/
inductive Level where
  | fallback
  | sse2
  | sse42
  | avx
  | avx2
  | avx512
  | neon
deriving DecidableEq, Fintype

/-- Lowercased debug rendering of a Level value, the string the From
impl in types.rs lines 253-273 inspects. -/
def levelDebugLower : Level → String
  | .fallback => "fallback(fallback)"
  | .sse2 => "sse2(sse2)"
  | .sse42 => "sse4_2(sse4_2)"
  | .avx => "avx(avx)"
  | .avx2 => "avx2(avx2)"
  | .avx512 => "avx512(avx512)"
  | .neon => "neon(neon)"

/-- True when the first list is an initial segment of the second. -/
def leadsWith : List Char → List Char → Bool
  | [], _ => true
  | _ :: _, [] => false
  | a :: as, b :: bs => a == b && leadsWith as bs

/-- True when the needle occurs as a contiguous substring of the hay,
mirroring str::contains as used by the From impl in types.rs. -/
def hasSubstr (needle hay : String) : Bool :=
  (List.range (hay.toList.length + 1)).any
    (fun i => leadsWith needle.toList (hay.toList.drop i))

def strNeon : String := "neon"

def strAvx512 : String := "avx512"

def strAvx2 : String := "avx2"

def strAvx : String := "avx"

def strSse4 : String := "sse4"

def strSse2 : String := "sse2"

/-- Embedding of the From impl mapping an internal Level to a boundary
VelloSimdLevel by substring tests on its lowercased debug name
(types.rs lines 253-273). -/
def simdLevelFromLevel (level : Level) : VelloSimdLevel :=
  let name := levelDebugLower level
  if hasSubstr strNeon name then .Neon
  else if hasSubstr strAvx512 name then .Avx512
  else if hasSubstr strAvx2 name then .Avx2
  else if hasSubstr strAvx name then .Avx
  else if hasSubstr strSse4 name then .Sse42
  else if hasSubstr strSse2 name then .Sse2
  else .Fallback

/-- Embedding of VelloSimdLevel::to_vello_level (types.rs lines
276-282): the Fallback tag maps to the fallback level; every other tag
ignores its own value and takes the detected level, falling back when
detection fails. The detection outcome is the tryDetect argument. -/
def toVelloLevel (tryDetect : Option Level) : VelloSimdLevel → Level
  | .Fallback => .fallback
  | _ => tryDetect.getD .fallback

/-- Embedding of VelloSimdLevel::from_vello_level (types.rs lines
284-286), which just delegates to the From impl. -/
def fromVelloLevel (level : Level) : VelloSimdLevel :=
  simdLevelFromLevel level

/-! ## Fixed-layout value records (types.rs lines 24-192)

Floating fields are carried as rationals; the boundary code in scope
only moves them between records, so any carrier with decidable equality
embeds it faithfully. -/

/-- Premultiplied RGBA8 color (types.rs lines 24-32). -/
structure VelloPremulRgba8 where
  r : Nat
  g : Nat
  b : Nat
  a : Nat
deriving DecidableEq

/-- Rectangle (types.rs lines 42-50). -/
structure VelloRect where
  x0 : ℚ
  y0 : ℚ
  x1 : ℚ
  y1 : ℚ
deriving DecidableEq

/-- 2D affine transformation record of the boundary, field order as
declared (types.rs lines 52-62). -/
structure VelloAffine where
  m11 : ℚ
  m12 : ℚ
  m13 : ℚ
  m21 : ℚ
  m22 : ℚ
  m23 : ℚ
deriving DecidableEq

/-- Stroke parameter record of the boundary (types.rs lines 64-74). -/
structure VelloStroke where
  width : ℚ
  miter_limit : ℚ
  join : VelloJoin
  start_cap : VelloCap
  end_cap : VelloCap
deriving DecidableEq

/-- Gradient color stop of the boundary (types.rs lines 183-192). -/
structure VelloColorStop where
  offset : ℚ
  r : Nat
  g : Nat
  b : Nat
  a : Nat
deriving DecidableEq

/-! ## Internal engine value types touched by the boundary code -/

/-- Internal kurbo affine: the six coefficients in kurbo order as handed
to Affine::new and returned by as_coeffs. -/
structure KurboAffine where
  c0 : ℚ
  c1 : ℚ
  c2 : ℚ
  c3 : ℚ
  c4 : ℚ
  c5 : ℚ
deriving DecidableEq

/-- Internal kurbo stroke as the boundary builds it: width, join, caps
and miter limit; the remaining kurbo fields keep their defaults and are
never read back by the boundary. -/
structure KurboStroke where
  width : ℚ
  join : KurboJoin
  start_cap : KurboCap
  end_cap : KurboCap
  miter_limit : ℚ
deriving DecidableEq

/-- Internal peniko color stop as the gradient constructors build it
from a VelloColorStop: the offset and the straight RGBA channels. -/
structure PenikoColorStop where
  offset : ℚ
  r : Nat
  g : Nat
  b : Nat
  a : Nat
deriving DecidableEq

/-- Conversion of one boundary stop performed inside each gradient
constructor (context.rs lines 156-162 and the two copies). -/
def convertStop (s : VelloColorStop) : PenikoColorStop :=
  { offset := s.offset, r := s.r, g := s.g, b := s.b, a := s.a }

/-- State of an engine pixmap as the boundary observes it: dimensions
and the premultiplied pixel data in row-major order. -/
structure PixmapState where
  width : Nat
  height : Nat
  data : List VelloPremulRgba8
deriving DecidableEq

/-- The engine sample operation Pixmap::sample the guarded
vello_pixmap_sample delegates to for in-bounds coordinates: row-major
indexing of the pixel data. -/
def pixmapSample (pm : PixmapState) (x y : Nat) : VelloPremulRgba8 :=
  pm.data.getD (y * pm.width + x) ⟨0, 0, 0, 0⟩

/-- State of an engine image (vello_common Image) as built by
vello_image_new_from_pixmap: the source pixmap and the sampler fields,
alpha carried as a rational. -/
structure ImageState where
  pixmap : PixmapState
  xExtend : PenikoExtend
  yExtend : PenikoExtend
  quality : PenikoImageQuality
  alpha : ℚ
deriving DecidableEq

/-- The paint of a render context as the boundary sets it. -/
inductive Paint where
  | solid (r g b a : Nat)
  | linearGradient (x0 y0 x1 y1 : ℚ) (stops : List PenikoColorStop) (extend : PenikoExtend)
  | radialGradient (cx cy radius : ℚ) (stops : List PenikoColorStop) (extend : PenikoExtend)
  | sweepGradient (cx cy startAngle endAngle : ℚ) (stops : List PenikoColorStop)
      (extend : PenikoExtend)
  | image (img : ImageState)
deriving DecidableEq

/-- Drawing state of an engine render context as the boundary reads and
writes it. -/
structure RenderContextState where
  width : Nat
  height : Nat
  paint : Paint
  transform : KurboAffine
  paintTransform : KurboAffine
  stroke : KurboStroke
  fillRule : PenikoFill
  aliasingThreshold : Option Int
deriving DecidableEq

/-- One recorded command of a Recording, as appended by the recorder
entry points of recording.rs. -/
inductive RecCmd where
  | fillRect (r : VelloRect)
  | strokeRect (r : VelloRect)
  | fillPath
  | strokePath
  | setPaintSolid (r g b a : Nat)
  | setTransform (t : KurboAffine)
  | setPaintTransform (t : KurboAffine)
  | resetPaintTransform
  | setFillRule (f : PenikoFill)
  | setStroke (s : KurboStroke)
  | pushClipLayer
  | popLayer
deriving DecidableEq

/-- State of an engine Recording as the boundary observes it through
command_count, has_cached_strips, strip_count and alpha_count: the
command log plus the cached strip and alpha counts. -/
structure RecordingState where
  commands : List RecCmd
  strips : Nat
  alphas : Nat
  cached : Bool
deriving DecidableEq

/-- The empty recording produced by Recording::new, as
vello_recording_new allocates it. -/
def emptyRecording : RecordingState :=
  { commands := [], strips := 0, alphas := 0, cached := false }

/-! ## Entry points of context.rs -/

/-- Embedding of vello_render_context_width (context.rs lines 58-67): a
null context yields 0, with no status and no error message. -/
def vello_render_context_width (ctx : Option RenderContextState) : Nat :=
  match ctx with
  | none => 0
  | some c => c.width

/-- Embedding of vello_render_context_height (context.rs lines 70-79). -/
def vello_render_context_height (ctx : Option RenderContextState) : Nat :=
  match ctx with
  | none => 0
  | some c => c.height

/-- Embedding of vello_render_context_set_paint_linear_gradient
(context.rs lines 125-175): null checks first, then the stop-count
check, then the conversion of the first stop_count stops and the paint
update. The stops argument carries the array the stops pointer points
at; the source reads exactly stop_count entries from it. -/
def vello_render_context_set_paint_linear_gradient
    (ctx : Option RenderContextState) (x0 y0 x1 y1 : ℚ)
    (stops : Option (List VelloColorStop)) (stop_count : Nat)
    (extend : VelloExtend) (slot : Option String) :
    Int × Option RenderContextState × Option String :=
  if ctx.isNone || (decide (stop_count > 0) && stops.isNone) then
    (VELLO_ERROR_NULL_POINTER, ctx, set_last_error msgNullPointer slot)
  else if stop_count < 2 then
    (VELLO_ERROR_INVALID_PARAMETER, ctx, set_last_error msgGradientStops slot)
  else
    match ctx, stops with
    | some c, some l =>
        let color_stops := (l.take stop_count).map convertStop
        (VELLO_OK,
         some { c with paint := .linearGradient x0 y0 x1 y1 color_stops (extendToPeniko extend) },
         slot)
    | _, _ =>
        -- dead arm: the guard above already returned for any null argument
        (VELLO_ERROR_NULL_POINTER, ctx, set_last_error msgNullPointer slot)

/-- Embedding of vello_render_context_set_paint_radial_gradient
(context.rs lines 178-227), same structure as the linear constructor. -/
def vello_render_context_set_paint_radial_gradient
    (ctx : Option RenderContextState) (cx cy radius : ℚ)
    (stops : Option (List VelloColorStop)) (stop_count : Nat)
    (extend : VelloExtend) (slot : Option String) :
    Int × Option RenderContextState × Option String :=
  if ctx.isNone || (decide (stop_count > 0) && stops.isNone) then
    (VELLO_ERROR_NULL_POINTER, ctx, set_last_error msgNullPointer slot)
  else if stop_count < 2 then
    (VELLO_ERROR_INVALID_PARAMETER, ctx, set_last_error msgGradientStops slot)
  else
    match ctx, stops with
    | some c, some l =>
        let color_stops := (l.take stop_count).map convertStop
        (VELLO_OK,
         some { c with paint := .radialGradient cx cy radius color_stops (extendToPeniko extend) },
         slot)
    | _, _ =>
        -- dead arm: the guard above already returned for any null argument
        (VELLO_ERROR_NULL_POINTER, ctx, set_last_error msgNullPointer slot)

/-- Embedding of vello_render_context_set_paint_sweep_gradient
(context.rs lines 230-280), same structure as the linear constructor. -/
def vello_render_context_set_paint_sweep_gradient
    (ctx : Option RenderContextState) (cx cy start_angle end_angle : ℚ)
    (stops : Option (List VelloColorStop)) (stop_count : Nat)
    (extend : VelloExtend) (slot : Option String) :
    Int × Option RenderContextState × Option String :=
  if ctx.isNone || (decide (stop_count > 0) && stops.isNone) then
    (VELLO_ERROR_NULL_POINTER, ctx, set_last_error msgNullPointer slot)
  else if stop_count < 2 then
    (VELLO_ERROR_INVALID_PARAMETER, ctx, set_last_error msgGradientStops slot)
  else
    match ctx, stops with
    | some c, some l =>
        let color_stops := (l.take stop_count).map convertStop
        (VELLO_OK,
         some { c with
                  paint := .sweepGradient cx cy start_angle end_angle color_stops
                    (extendToPeniko extend) },
         slot)
    | _, _ =>
        -- dead arm: the guard above already returned for any null argument
        (VELLO_ERROR_NULL_POINTER, ctx, set_last_error msgNullPointer slot)

/-- Embedding of vello_render_context_set_transform (context.rs lines
283-300): the six boundary fields are handed to Affine::new in the
order m11, m12, m21, m22, m13, m23. -/
def vello_render_context_set_transform (ctx : Option RenderContextState)
    (transform : Option VelloAffine) (slot : Option String) :
    Int × Option RenderContextState × Option String :=
  match ctx, transform with
  | some c, some t =>
      (VELLO_OK,
       some { c with transform := ⟨t.m11, t.m12, t.m21, t.m22, t.m13, t.m23⟩ },
       slot)
  | _, _ => (VELLO_ERROR_NULL_POINTER, ctx, set_last_error msgNullPointer slot)

/-- Embedding of vello_render_context_get_transform (context.rs lines
317-341): the kurbo coefficients are written back as m11 := c0,
m12 := c1, m21 := c2, m22 := c3, m13 := c4, m23 := c5. The result
carries the record written through the out pointer. -/
def vello_render_context_get_transform (ctx : Option RenderContextState)
    (out_transform : Option VelloAffine) (slot : Option String) :
    Int × Option VelloAffine × Option String :=
  match ctx, out_transform with
  | some c, some _ =>
      let k := c.transform
      (VELLO_OK,
       some { m11 := k.c0, m12 := k.c1, m21 := k.c2, m22 := k.c3, m13 := k.c4, m23 := k.c5 },
       slot)
  | _, _ => (VELLO_ERROR_NULL_POINTER, out_transform, set_last_error msgNullPointer slot)

/-- Rust Ord::clamp on integers, as used by
vello_render_context_set_aliasing_threshold. -/
def rustClamp (t lo hi : Int) : Int :=
  if t < lo then lo else if t > hi then hi else t

/-- Embedding of vello_render_context_set_aliasing_threshold (context.rs
lines 719-740): a negative i16 threshold selects None, a non-negative
one is clamped to the range 0 to 255 and set. -/
def vello_render_context_set_aliasing_threshold (ctx : Option RenderContextState)
    (threshold : Int) (slot : Option String) :
    Int × Option RenderContextState × Option String :=
  match ctx with
  | none => (VELLO_ERROR_NULL_POINTER, none, set_last_error msgNullContext slot)
  | some c =>
      let threshold_opt := if threshold < 0 then none else some (rustClamp threshold 0 255)
      (VELLO_OK, some { c with aliasingThreshold := threshold_opt }, slot)

/-- Embedding of vello_render_context_get_fill_rule (context.rs lines
642-656): a null context yields the NonZero default with no status and
no error message. -/
def vello_render_context_get_fill_rule (ctx : Option RenderContextState) : VelloFillRule :=
  match ctx with
  | none => .NonZero
  | some c => penikoFillToVello c.fillRule

/-- Embedding of vello_render_context_flush (context.rs lines 586-598):
the null check, then the engine flush inside ffi_catch. The engine call
is the engineFlush outcome argument. -/
def vello_render_context_flush (ctx : Option RenderContextState)
    (engineFlush : Outcome Unit) (slot : Option String) : Int × Option String :=
  match ctx with
  | none => (VELLO_ERROR_NULL_POINTER, set_last_error msgNullContext slot)
  | some _ =>
      ffi_catch slot
        (match engineFlush with
          | .ok _ => .ok (VELLO_OK, slot)
          | .panicked p => .panicked p)

/-- Embedding of vello_render_context_render_to_buffer (context.rs lines
857-887). The engine render call only sees a slice of exactly
width * height * 4 bytes, so the model splits the destination there: the
render oracle maps the old slice contents to the new ones and the tail
of the destination is untouched. The length check happens before any
write; on failure the destination and the context are returned
unchanged. -/
def vello_render_context_render_to_buffer
    (render : RenderContextState → List Nat → Nat → Nat → RenderMode → List Nat)
    (ctx : Option RenderContextState) (buffer : Option (List Nat)) (buffer_len : Nat)
    (width height : Nat) (render_mode : VelloRenderMode) (slot : Option String) :
    Int × Option RenderContextState × Option (List Nat) × Option String :=
  match ctx, buffer with
  | some c, some buf =>
      let required_len := width * height * 4
      if buffer_len < required_len then
        (VELLO_ERROR_INVALID_PARAMETER, some c, some buf, set_last_error msgBufferTooSmall slot)
      else
        (VELLO_OK, some c,
         some (render c (buf.take required_len) width height (velloToRenderMode render_mode) ++
               buf.drop required_len),
         slot)
  | _, _ => (VELLO_ERROR_NULL_POINTER, ctx, buffer, set_last_error msgNullPointer slot)

/-! ## Entry points of pixmap.rs -/

/-- Embedding of vello_pixmap_width (pixmap.rs lines 34-43). -/
def vello_pixmap_width (pixmap : Option PixmapState) : Nat :=
  match pixmap with
  | none => 0
  | some p => p.width

/-- Embedding of vello_pixmap_height (pixmap.rs lines 46-55). -/
def vello_pixmap_height (pixmap : Option PixmapState) : Nat :=
  match pixmap with
  | none => 0
  | some p => p.height

/-- Embedding of vello_pixmap_sample (pixmap.rs lines 123-147): null
checks, then the bounds check, and only for in-bounds coordinates the
engine sample and the write through the out pointer. The second result
component is the out-pixel cell, unchanged unless written. -/
def vello_pixmap_sample (pixmap : Option PixmapState) (x y : Nat)
    (out_pixel : Option VelloPremulRgba8) (slot : Option String) :
    Int × Option VelloPremulRgba8 × Option String :=
  match pixmap, out_pixel with
  | some p, some out0 =>
      if x ≥ p.width ∨ y ≥ p.height then
        (VELLO_ERROR_INVALID_PARAMETER, some out0, set_last_error msgOutOfBounds slot)
      else
        (VELLO_OK, some (pixmapSample p x y), slot)
  | _, _ => (VELLO_ERROR_NULL_POINTER, out_pixel, set_last_error msgNullPointer slot)

/-! ## Entry points of image.rs -/

/-- Machine epsilon of f32, the constant f32::EPSILON used by the
opacity check in vello_render_context_set_paint_image. -/
def f32Epsilon : ℚ := 1 / 2 ^ 23

/-- Embedding of vello_render_context_set_paint_image (image.rs lines
80-102). The source computes (alpha - 1.0).abs() in f32 and compares it
with f32::EPSILON; for every f32 alpha between 0.5 and 2.0 that
subtraction is exact by the Sterbenz lemma, so on that range the
rational computation here coincides bit for bit with the f32 one, in
particular at 1.0 and its f32 neighbours. -/
def vello_render_context_set_paint_image (ctx : Option RenderContextState)
    (image : Option ImageState) (slot : Option String) :
    Int × Option RenderContextState × Option String :=
  match ctx, image with
  | some c, some img =>
      if |img.alpha - 1| > f32Epsilon then
        (VELLO_ERROR_INVALID_PARAMETER, some c, set_last_error msgImageOpacity slot)
      else
        (VELLO_OK, some { c with paint := .image img }, slot)
  | _, _ => (VELLO_ERROR_NULL_POINTER, ctx, set_last_error msgNullPointer slot)

/-- Embedding of vello_image_new_from_pixmap (image.rs lines 22-67):
builds the Image value with the converted sampler fields; the alpha
field passes through unchanged. Returns none for a null pixmap. -/
def vello_image_new_from_pixmap (pixmap : Option PixmapState)
    (x_extend y_extend : VelloExtend) (quality : VelloImageQuality) (alpha : ℚ) :
    Option ImageState :=
  match pixmap with
  | none => none
  | some p =>
      some { pixmap := p,
             xExtend := extendToPeniko x_extend,
             yExtend := extendToPeniko y_extend,
             quality := qualityToPeniko quality,
             alpha := alpha }

/-! ## Entry points of recording.rs

No function in recording.rs wraps its body in ffi_catch or
ffi_catch_ptr, unlike every other module of the crate. The functions
whose bodies invoke engine code or a caller callback are therefore
embedded with an Except result: the error case is a panic unwinding
across the extern boundary. The source returns the literals -1 and 0
here, which coincide with VELLO_ERROR_NULL_POINTER and VELLO_OK. -/

/-- Embedding of vello_recording_clear (recording.rs lines 30-41):
Recording::clear discards the command log and the cache. -/
def vello_recording_clear (recording : Option RecordingState) (slot : Option String) :
    Int × Option RecordingState × Option String :=
  match recording with
  | none => (-1, none, set_last_error msgNullRecording slot)
  | some _ => (0, some emptyRecording, slot)

/-- Embedding of vello_recording_len (recording.rs lines 43-53): the
command count, with 0 for a null recording; the function returns a
usize, never a status code. -/
def vello_recording_len (recording : Option RecordingState) (slot : Option String) :
    Nat × Option String :=
  match recording with
  | none => (0, set_last_error msgNullRecording slot)
  | some r => (r.commands.length, slot)

/-- Embedding of vello_recording_has_cached_strips (recording.rs lines
55-69): 1 when the cache is present, 0 otherwise and 0 for a null
recording. -/
def vello_recording_has_cached_strips (recording : Option RecordingState)
    (slot : Option String) : Int × Option String :=
  match recording with
  | none => (0, set_last_error msgNullRecording slot)
  | some r => (if r.cached then 1 else 0, slot)

/-- Embedding of vello_recording_strip_count (recording.rs lines
71-81). -/
def vello_recording_strip_count (recording : Option RecordingState)
    (slot : Option String) : Nat × Option String :=
  match recording with
  | none => (0, set_last_error msgNullRecording slot)
  | some r => (r.strips, slot)

/-- Embedding of vello_recording_alpha_count (recording.rs lines
83-93). -/
def vello_recording_alpha_count (recording : Option RecordingState)
    (slot : Option String) : Nat × Option String :=
  match recording with
  | none => (0, set_last_error msgNullRecording slot)
  | some r => (r.alphas, slot)

/-- Embedding of vello_render_context_record (recording.rs lines
100-126): null checks on the context and the recording, then the engine
record call which hands a recorder to the caller-supplied callback with
NO ffi_catch around it. The callback outcome either carries the
commands the callback appended through the recorder, or a panic, which
this entry point lets unwind across the boundary (the Except error
case). -/
def vello_render_context_record (ctx : Option RenderContextState)
    (recording : Option RecordingState) (callback : Outcome (List RecCmd))
    (slot : Option String) :
    Except PanicPayload (Int × Option RecordingState × Option String) :=
  match ctx with
  | none => .ok (-1, recording, set_last_error msgNullContext slot)
  | some _ =>
      match recording with
      | none => .ok (-1, none, set_last_error msgNullRecording slot)
      | some r =>
          match callback with
          | .panicked p => .error p
          | .ok cmds => .ok (0, some { r with commands := r.commands ++ cmds }, slot)

/-- Embedding of vello_render_context_prepare_recording (recording.rs
lines 128-150): null checks, then the engine prepare call with NO
ffi_catch around it. The engine outcome carries the strip and alpha
counts the prepare step computes, or a panic, which unwinds across the
boundary. -/
def vello_render_context_prepare_recording (ctx : Option RenderContextState)
    (recording : Option RecordingState) (enginePrepare : Outcome (Nat × Nat))
    (slot : Option String) :
    Except PanicPayload (Int × Option RecordingState × Option String) :=
  match ctx with
  | none => .ok (-1, recording, set_last_error msgNullContext slot)
  | some _ =>
      match recording with
      | none => .ok (-1, none, set_last_error msgNullRecording slot)
      | some r =>
          match enginePrepare with
          | .panicked p => .error p
          | .ok (s, a) => .ok (0, some { r with strips := s, alphas := a, cached := true }, slot)

/-- Embedding of vello_render_context_execute_recording (recording.rs
lines 152-174): null checks, then the engine execute call with NO
ffi_catch around it; a panic inside the engine replay unwinds across
the boundary. -/
def vello_render_context_execute_recording (ctx : Option RenderContextState)
    (recording : Option RecordingState) (engineExecute : Outcome Unit)
    (slot : Option String) :
    Except PanicPayload (Int × Option RecordingState × Option String) :=
  match ctx with
  | none => .ok (-1, recording, set_last_error msgNullContext slot)
  | some _ =>
      match recording with
      | none => .ok (-1, none, set_last_error msgNullRecording slot)
      | some r =>
          match engineExecute with
          | .panicked p => .error p
          | .ok _ => .ok (0, some r, slot)

/-! ## Sample concrete values used by witnesses and counterexamples -/

/-- The identity affine, a sample transform value. -/
def kurboIdentity : KurboAffine := ⟨1, 0, 0, 1, 0, 0⟩

/-- A sample live render-context state for concrete evaluations. -/
def sampleCtx : RenderContextState :=
  { width := 100,
    height := 100,
    paint := .solid 0 0 0 255,
    transform := kurboIdentity,
    paintTransform := kurboIdentity,
    stroke := { width := 1, join := .Round, start_cap := .Round, end_cap := .Round,
                miter_limit := 4 },
    fillRule := .NonZero,
    aliasingThreshold := none }

/-- A sample pixmap for concrete evaluations: 2 wide, 1 high. -/
def samplePixmap : PixmapState :=
  { width := 2, height := 1, data := [⟨1, 2, 3, 4⟩, ⟨5, 6, 7, 8⟩] }

/-- A sample image with fully opaque sampler alpha. -/
def sampleImage : ImageState :=
  { pixmap := samplePixmap, xExtend := .Pad, yExtend := .Pad, quality := .Low, alpha := 1 }

/-! ## Claim theorems -/

/-- C8: for every 6-field affine input, set_transform on a non-null
context succeeds and a following get_transform returns a record equal
field for field to the input; the boundary performs no arithmetic on
the fields, only the permutation into kurbo coefficient order and back,
so the returned values are bit-identical to the inputs. -/
theorem C8_transform_roundtrip (c : RenderContextState) (t : VelloAffine)
    (out0 : VelloAffine) (slot slot2 : Option String) :
    (vello_render_context_set_transform (some c) (some t) slot).1 = VELLO_OK ∧
    vello_render_context_get_transform
        (vello_render_context_set_transform (some c) (some t) slot).2.1 (some out0) slot2 =
      (VELLO_OK, some t, slot2) := by
  cases t
  exact ⟨rfl, rfl⟩

/-- C9: set_aliasing_threshold on a non-null context always returns
success; a negative threshold selects the engine default (None), and a
non-negative one is clamped into the range 0 to 255 before being set. -/
theorem C9_aliasing_threshold (c : RenderContextState) (t : Int) (slot : Option String) :
    (vello_render_context_set_aliasing_threshold (some c) t slot).1 = VELLO_OK ∧
    (t < 0 →
      vello_render_context_set_aliasing_threshold (some c) t slot =
        (VELLO_OK, some { c with aliasingThreshold := none }, slot)) ∧
    (0 ≤ t →
      vello_render_context_set_aliasing_threshold (some c) t slot =
        (VELLO_OK, some { c with aliasingThreshold := some (min t 255) }, slot) ∧
      0 ≤ min t 255 ∧ min t 255 ≤ 255) := by
  refine ⟨rfl, ?_, ?_⟩
  · intro h
    simp [vello_render_context_set_aliasing_threshold, if_pos h]
  · intro h
    have hc : rustClamp t 0 255 = min t 255 := by
      simp only [rustClamp, Int.min_def]
      split_ifs <;> omega
    refine ⟨?_, by omega, by omega⟩
    simp [vello_render_context_set_aliasing_threshold, hc]
    omega

theorem C9_aliasing_threshold_witness :
    vello_render_context_set_aliasing_threshold (some sampleCtx) 300 none =
      (VELLO_OK, some { sampleCtx with aliasingThreshold := some 255 }, none) ∧
    vello_render_context_set_aliasing_threshold (some sampleCtx) (-1) none =
      (VELLO_OK, some { sampleCtx with aliasingThreshold := none }, none) := by
  have h1 := (C9_aliasing_threshold sampleCtx 300 none).2.2 (by decide)
  have h2 := (C9_aliasing_threshold sampleCtx (-1) none).2.1 (by decide)
  refine ⟨?_, h2⟩
  have : min (300 : Int) 255 = 255 := by decide
  simpa [this] using h1.1

/-- C10: vello_pixmap_sample with non-null pixmap and out pointer and an
out-of-bounds coordinate returns the invalid-parameter status and
leaves the out pixel unwritten; in bounds it writes the premultiplied
pixel and returns success; and under the pixmap size invariant the
guarded row-major index is always inside the data, so the underlying
indexing is never out of bounds. -/
theorem C10_pixmap_sample_bounds (p : PixmapState) (x y : Nat)
    (out0 : VelloPremulRgba8) (slot : Option String) :
    (x ≥ p.width ∨ y ≥ p.height →
      vello_pixmap_sample (some p) x y (some out0) slot =
        (VELLO_ERROR_INVALID_PARAMETER, some out0, set_last_error msgOutOfBounds slot)) ∧
    (x < p.width → y < p.height →
      vello_pixmap_sample (some p) x y (some out0) slot =
        (VELLO_OK, some (pixmapSample p x y), slot)) ∧
    (x < p.width → y < p.height → p.data.length = p.width * p.height →
      y * p.width + x < p.data.length) := by
  refine ⟨?_, ?_, ?_⟩
  · intro h
    simp only [vello_pixmap_sample, if_pos h]
  · intro hx hy
    have h : ¬(x ≥ p.width ∨ y ≥ p.height) := by omega
    simp only [vello_pixmap_sample, if_neg h]
  · intro hx hy hlen
    have h1 : (y + 1) * p.width ≤ p.height * p.width :=
      Nat.mul_le_mul_right _ (by omega)
    have h2 : y * p.width + p.width = (y + 1) * p.width := by ring
    rw [hlen]
    have h3 : p.width * p.height = p.height * p.width := by ring
    omega

theorem C10_pixmap_sample_witness :
    vello_pixmap_sample (some samplePixmap) 1 0 (some ⟨0, 0, 0, 0⟩) none =
      (VELLO_OK, some ⟨5, 6, 7, 8⟩, none) ∧
    vello_pixmap_sample (some samplePixmap) 2 0 (some ⟨0, 0, 0, 0⟩) none =
      (VELLO_ERROR_INVALID_PARAMETER, some ⟨0, 0, 0, 0⟩,
        set_last_error msgOutOfBounds none) ∧
    (0 : Nat) * samplePixmap.width + 1 < samplePixmap.data.length := by
  have h1 := (C10_pixmap_sample_bounds samplePixmap 1 0 ⟨0, 0, 0, 0⟩ none).2.1
    (by decide) (by decide)
  have h2 := (C10_pixmap_sample_bounds samplePixmap 2 0 ⟨0, 0, 0, 0⟩ none).1
    (by left; decide)
  have h3 := (C10_pixmap_sample_bounds samplePixmap 1 0 ⟨0, 0, 0, 0⟩ none).2.2
    (by decide) (by decide) (by decide)
  refine ⟨?_, h2, h3⟩
  rw [h1]
  rfl

/-- C3: render_to_buffer with non-null context and buffer fails with
the invalid-parameter status when the supplied length is below
width * height * 4, changing neither the destination nor the context;
with a sufficient length it succeeds, replaces exactly the first
width * height * 4 bytes with the engine output and leaves the rest of
the destination untouched. The render argument is the engine call,
which rewrites the slice it is handed without changing its length. -/
theorem C3_render_to_buffer_length_guard
    (render : RenderContextState → List Nat → Nat → Nat → RenderMode → List Nat)
    (hrender : ∀ c s w h m, (render c s w h m).length = s.length)
    (c : RenderContextState) (buf : List Nat) (w h : Nat)
    (mode : VelloRenderMode) (slot : Option String) :
    (buf.length < w * h * 4 →
      vello_render_context_render_to_buffer render (some c) (some buf) buf.length w h mode slot =
        (VELLO_ERROR_INVALID_PARAMETER, some c, some buf,
          set_last_error msgBufferTooSmall slot)) ∧
    (w * h * 4 ≤ buf.length →
      ∃ out,
        vello_render_context_render_to_buffer render (some c) (some buf) buf.length w h mode slot
          = (VELLO_OK, some c, some out, slot) ∧
        out.length = buf.length ∧
        out.drop (w * h * 4) = buf.drop (w * h * 4) ∧
        out.take (w * h * 4) = render c (buf.take (w * h * 4)) w h (velloToRenderMode mode)) := by
  constructor
  · intro hlt
    simp only [vello_render_context_render_to_buffer, if_pos hlt]
  · intro hge
    have hnot : ¬ buf.length < w * h * 4 := by omega
    refine ⟨render c (buf.take (w * h * 4)) w h (velloToRenderMode mode) ++
      buf.drop (w * h * 4), ?_, ?_, ?_, ?_⟩
    · simp only [vello_render_context_render_to_buffer, if_neg hnot]
    · rw [List.length_append, hrender, List.length_take, List.length_drop]
      omega
    · have hl : (render c (buf.take (w * h * 4)) w h (velloToRenderMode mode)).length
          = w * h * 4 := by
        rw [hrender, List.length_take]
        omega
      exact List.drop_left' hl
    · have hl : (render c (buf.take (w * h * 4)) w h (velloToRenderMode mode)).length
          = w * h * 4 := by
        rw [hrender, List.length_take]
        omega
      exact List.take_left' hl

theorem C3_render_to_buffer_witness :
    vello_render_context_render_to_buffer (fun _ s _ _ _ => s) (some sampleCtx)
        (some [9, 9, 9]) 3 1 1 .OptimizeSpeed none =
      (VELLO_ERROR_INVALID_PARAMETER, some sampleCtx, some [9, 9, 9],
        set_last_error msgBufferTooSmall none) ∧
    ∃ out,
      vello_render_context_render_to_buffer (fun _ s _ _ _ => s) (some sampleCtx)
          (some [9, 9, 9, 9]) 4 1 1 .OptimizeSpeed none
        = (VELLO_OK, some sampleCtx, some out, none) ∧
      out.length = 4 := by
  constructor
  · exact (C3_render_to_buffer_length_guard (fun _ s _ _ _ => s)
      (fun _ _ _ _ _ => rfl) sampleCtx [9, 9, 9] 1 1 .OptimizeSpeed none).1 (by decide)
  · obtain ⟨out, h1, h2, -, -⟩ := (C3_render_to_buffer_length_guard (fun _ s _ _ _ => s)
      (fun _ _ _ _ _ => rfl) sampleCtx [9, 9, 9, 9] 1 1 .OptimizeSpeed none).2 (by decide)
    exact ⟨out, h1, h2⟩

/-- C2 counterexample: the value-returning query vello_recording_len,
called with a null recording, returns the count 0 (a usize) and not the
null-pointer status code, and the same holds for the context width
query; so the claim that every handle-accepting call returns the
null-pointer status on null fails at these calls. -/
theorem C2_null_query_counterexample :
    vello_recording_len none none = (0, some msgNullRecording) ∧
    vello_render_context_width none = 0 ∧
    (0 : Int) ≠ VELLO_ERROR_NULL_POINTER ∧
    vello_render_context_get_fill_rule none = VelloFillRule.NonZero := by
  refine ⟨?_, rfl, by decide, rfl⟩
  simp [vello_recording_len, set_last_error, msgNullRecording, containsNul]

/-- C2 amended: a null handle passed to any status-returning call
yields the null-pointer status, while the value-returning queries
(context and pixmap width and height, recording command, strip and
alpha counts, has_cached_strips, the fill-rule getter) instead return 0
or their documented default value rather than a status code. -/
theorem C2_null_handle_amended (slot : Option String) :
    (vello_recording_clear none slot).1 = VELLO_ERROR_NULL_POINTER ∧
    vello_render_context_record none (some emptyRecording) (.ok []) slot =
      .ok (VELLO_ERROR_NULL_POINTER, some emptyRecording, set_last_error msgNullContext slot) ∧
    vello_render_context_prepare_recording (some sampleCtx) none (.ok (0, 0)) slot =
      .ok (VELLO_ERROR_NULL_POINTER, none, set_last_error msgNullRecording slot) ∧
    vello_render_context_execute_recording none (some emptyRecording) (.ok ()) slot =
      .ok (VELLO_ERROR_NULL_POINTER, some emptyRecording, set_last_error msgNullContext slot) ∧
    (vello_render_context_set_transform none (some ⟨0, 0, 0, 0, 0, 0⟩) slot).1 =
      VELLO_ERROR_NULL_POINTER ∧
    (vello_render_context_get_transform none (some ⟨0, 0, 0, 0, 0, 0⟩) slot).1 =
      VELLO_ERROR_NULL_POINTER ∧
    (vello_render_context_set_aliasing_threshold none 0 slot).1 = VELLO_ERROR_NULL_POINTER ∧
    (vello_render_context_flush none (.ok ()) slot).1 = VELLO_ERROR_NULL_POINTER ∧
    (vello_render_context_render_to_buffer (fun _ s _ _ _ => s) none (some []) 0 1 1
      .OptimizeSpeed slot).1 = VELLO_ERROR_NULL_POINTER ∧
    (vello_pixmap_sample none 0 0 (some ⟨0, 0, 0, 0⟩) slot).1 = VELLO_ERROR_NULL_POINTER ∧
    (vello_render_context_set_paint_image none (some sampleImage) slot).1 =
      VELLO_ERROR_NULL_POINTER ∧
    (vello_render_context_set_paint_linear_gradient none 0 0 1 0 (some []) 2 .Pad slot).1 =
      VELLO_ERROR_NULL_POINTER ∧
    vello_render_context_width none = 0 ∧
    vello_render_context_height none = 0 ∧
    vello_pixmap_width none = 0 ∧
    vello_pixmap_height none = 0 ∧
    (vello_recording_len none slot).1 = 0 ∧
    (vello_recording_strip_count none slot).1 = 0 ∧
    (vello_recording_alpha_count none slot).1 = 0 ∧
    (vello_recording_has_cached_strips none slot).1 = 0 ∧
    vello_render_context_get_fill_rule none = VelloFillRule.NonZero := by
  and_intros <;> rfl

/-- A sample clean panic message. -/
def msgBoom : String := "boom"

/-- C1: the recording entry points of recording.rs wrap no part of
their bodies in ffi_catch, unlike every other module of the crate, so a
panic raised inside the caller-supplied callback invoked by record, or
inside the engine prepare or execute call, unwinds straight across the
extern boundary: no internal-failure status is produced and the
last-error slot receives no Panic: message. This theorem evaluates the
embedded entry points at such failing inputs. -/
theorem C1_recording_entry_points_let_panics_escape :
    vello_render_context_record (some sampleCtx) (some emptyRecording)
        (.panicked (.strMsg msgBoom)) none = Except.error (.strMsg msgBoom) ∧
    vello_render_context_prepare_recording (some sampleCtx) (some emptyRecording)
        (.panicked .other) none = Except.error .other ∧
    vello_render_context_execute_recording (some sampleCtx) (some emptyRecording)
        (.panicked (.strMsg msgBoom)) none = Except.error (.strMsg msgBoom) := by
  exact ⟨rfl, rfl, rfl⟩

/-- C4 counterexample: with a non-null context, a stop count of 1 and a
null stops pointer, the linear gradient constructor returns the
null-pointer status, not the invalid-parameter status the claim
requires for every input with 0 or 1 stops. -/
theorem C4_null_stops_counterexample :
    vello_render_context_set_paint_linear_gradient (some sampleCtx) 0 0 1 0 none 1 .Pad none =
      (VELLO_ERROR_NULL_POINTER, some sampleCtx, some msgNullPointer) ∧
    VELLO_ERROR_NULL_POINTER ≠ VELLO_ERROR_INVALID_PARAMETER := by
  refine ⟨?_, by decide⟩
  simp [vello_render_context_set_paint_linear_gradient, set_last_error, containsNul,
    msgNullPointer]

/-- C4 amended: for each gradient constructor with a non-null context
and a stop count of 0 or 1, the paint is left unchanged and the stops
never reach the engine; the status is invalid-parameter whenever the
stop count is 0 or the stops pointer is non-null, while a stop count of
1 with a null stops pointer returns the null-pointer status instead,
because the null check runs before the stop-count validation. -/
theorem C4_gradient_stop_validation_amended (c : RenderContextState)
    (stops : Option (List VelloColorStop)) (n : Nat) (ext : VelloExtend)
    (slot : Option String) (x0 y0 x1 y1 cx cy r sa ea : ℚ) (hn : n < 2) :
    ((vello_render_context_set_paint_linear_gradient (some c) x0 y0 x1 y1 stops n ext
      slot).2.1 = some c) ∧
    ((vello_render_context_set_paint_radial_gradient (some c) cx cy r stops n ext
      slot).2.1 = some c) ∧
    ((vello_render_context_set_paint_sweep_gradient (some c) cx cy sa ea stops n ext
      slot).2.1 = some c) ∧
    (n = 0 ∨ stops ≠ none →
      (vello_render_context_set_paint_linear_gradient (some c) x0 y0 x1 y1 stops n ext
        slot).1 = VELLO_ERROR_INVALID_PARAMETER ∧
      (vello_render_context_set_paint_radial_gradient (some c) cx cy r stops n ext
        slot).1 = VELLO_ERROR_INVALID_PARAMETER ∧
      (vello_render_context_set_paint_sweep_gradient (some c) cx cy sa ea stops n ext
        slot).1 = VELLO_ERROR_INVALID_PARAMETER) ∧
    (n ≠ 0 → stops = none →
      (vello_render_context_set_paint_linear_gradient (some c) x0 y0 x1 y1 stops n ext
        slot).1 = VELLO_ERROR_NULL_POINTER ∧
      (vello_render_context_set_paint_radial_gradient (some c) cx cy r stops n ext
        slot).1 = VELLO_ERROR_NULL_POINTER ∧
      (vello_render_context_set_paint_sweep_gradient (some c) cx cy sa ea stops n ext
        slot).1 = VELLO_ERROR_NULL_POINTER) := by
  obtain rfl | rfl : n = 0 ∨ n = 1 := by omega
  · cases stops <;>
      simp [vello_render_context_set_paint_linear_gradient,
        vello_render_context_set_paint_radial_gradient,
        vello_render_context_set_paint_sweep_gradient]
  · cases stops <;>
      simp [vello_render_context_set_paint_linear_gradient,
        vello_render_context_set_paint_radial_gradient,
        vello_render_context_set_paint_sweep_gradient]

theorem C4_gradient_stop_validation_witness :
    (vello_render_context_set_paint_linear_gradient (some sampleCtx) 0 0 1 0 (some []) 0 .Pad
      none).1 = VELLO_ERROR_INVALID_PARAMETER ∧
    (vello_render_context_set_paint_sweep_gradient (some sampleCtx) 0 0 0 1 (some []) 0 .Pad
      none).2.1 = some sampleCtx := by
  have h := C4_gradient_stop_validation_amended sampleCtx (some []) 0 .Pad none
    0 0 1 0 0 0 1 0 1 (by decide)
  exact ⟨(h.2.2.2.1 (Or.inl rfl)).1, h.2.2.1⟩

/-- A panic message containing an interior NUL byte, on which
CString::new inside set_last_error fails. -/
def msgWithNul : String := String.mk [Char.ofNat 98, Char.ofNat 0, Char.ofNat 109]

/-- A stale message already sitting in the slot. -/
def msgOld : String := "earlier failure"

/-- C5 counterexample: a failing call (status render-failed, so not
success) whose panic message contains a NUL byte leaves the last-error
slot holding the stale earlier message, because CString::new inside
set_last_error fails and the slot write is silently skipped; so the
slot is not overwritten on every failing call and the retrievable
message is not the one produced by that failure. -/
theorem C5_nul_message_counterexample :
    vello_render_context_flush (some sampleCtx) (.panicked (.strMsg msgWithNul))
        (some msgOld) = (VELLO_ERROR_RENDER_FAILED, some msgOld) ∧
    VELLO_ERROR_RENDER_FAILED ≠ VELLO_OK ∧
    msgOld ≠ msgPanicPrefixed ++ panicMsg (.strMsg msgWithNul) := by
  refine ⟨?_, by decide, by decide⟩
  simp [vello_render_context_flush, ffi_catch, set_last_error, containsNul, msgWithNul,
    msgPanicPrefixed, panicMsg]

/-- C5 amended: the per-thread slot is overwritten by every failing
call whose error message is NUL-free (in particular by every null-check
failure, whose messages are fixed NUL-free literals, and by every
caught panic whose composed message contains no NUL byte); a caught
panic whose composed message contains a NUL byte fails but leaves the
slot unchanged; successful calls never touch the slot; and only the
explicit vello_clear_last_error empties it, idempotently. -/
theorem C5_error_slot_amended (c : RenderContextState) (slot : Option String)
    (p : PanicPayload) :
    (containsNul (msgPanicPrefixed ++ panicMsg p) = false →
      vello_render_context_flush (some c) (.panicked p) slot =
        (VELLO_ERROR_RENDER_FAILED, some (msgPanicPrefixed ++ panicMsg p))) ∧
    (containsNul (msgPanicPrefixed ++ panicMsg p) = true →
      vello_render_context_flush (some c) (.panicked p) slot =
        (VELLO_ERROR_RENDER_FAILED, slot)) ∧
    vello_render_context_flush (some c) (.ok ()) slot = (VELLO_OK, slot) ∧
    (vello_render_context_set_aliasing_threshold (some c) 0 slot).2.2 = slot ∧
    (vello_recording_clear none slot).2.2 = some msgNullRecording ∧
    vello_clear_last_error slot = none ∧
    vello_clear_last_error (vello_clear_last_error slot) = vello_clear_last_error slot := by
  refine ⟨?_, ?_, rfl, rfl, ?_, rfl, rfl⟩
  · intro h
    simp [vello_render_context_flush, ffi_catch, set_last_error, h]
  · intro h
    simp [vello_render_context_flush, ffi_catch, set_last_error, h]
  · simp [vello_recording_clear, set_last_error, containsNul, msgNullRecording]

theorem C5_error_slot_witness :
    vello_render_context_flush (some sampleCtx) (.panicked (.strMsg msgBoom))
        (some msgOld) =
      (VELLO_ERROR_RENDER_FAILED, some (msgPanicPrefixed ++ panicMsg (.strMsg msgBoom))) ∧
    vello_render_context_flush (some sampleCtx) (.ok ()) (some msgOld) =
      (VELLO_OK, some msgOld) := by
  have h := C5_error_slot_amended sampleCtx (some msgOld) (.strMsg msgBoom)
  exact ⟨h.1 (by decide), h.2.2.1⟩

/-- A sample image whose sampler alpha is the f32 successor of 1.0,
namely 1 + 2 to the minus 23. Both 1.0 and this value are exactly
representable in f32 and their f32 subtraction is exact, so the code
compares exactly the rational difference used here. -/
def sampleImageNearOne : ImageState :=
  { pixmap := samplePixmap, xExtend := .Pad, yExtend := .Pad, quality := .Low,
    alpha := 1 + 1 / 2 ^ 23 }

/-- C6 counterexample: set_paint_image accepts an image whose alpha is
1 + 2 to the minus 23, which differs from 1.0, because the source test
is a comparison against f32::EPSILON rather than exact equality; so
the claim that every alpha other than exactly 1.0 is rejected fails. -/
theorem C6_epsilon_counterexample :
    (vello_render_context_set_paint_image (some sampleCtx) (some sampleImageNearOne)
      none).1 = VELLO_OK ∧
    sampleImageNearOne.alpha ≠ 1 ∧
    VELLO_OK ≠ VELLO_ERROR_INVALID_PARAMETER := by
  refine ⟨?_, by norm_num [sampleImageNearOne], by decide⟩
  have h : ¬(|sampleImageNearOne.alpha - 1| > f32Epsilon) := by
    have he : sampleImageNearOne.alpha - 1 = 1 / 2 ^ 23 := by
      norm_num [sampleImageNearOne]
    rw [he, f32Epsilon, abs_of_nonneg (by positivity)]
    norm_num
  simp [vello_render_context_set_paint_image, h]

/-- C6 amended: set_paint_image with non-null context and image rejects
the image with the invalid-parameter status, leaving the paint
unchanged, exactly when the absolute difference of its alpha from 1.0
exceeds f32::EPSILON; any alpha within that tolerance of 1.0, not only
exactly 1.0, is accepted and sets the paint. -/
theorem C6_image_opacity_amended (c : RenderContextState) (img : ImageState)
    (slot : Option String) :
    (|img.alpha - 1| > f32Epsilon →
      vello_render_context_set_paint_image (some c) (some img) slot =
        (VELLO_ERROR_INVALID_PARAMETER, some c, set_last_error msgImageOpacity slot)) ∧
    (|img.alpha - 1| ≤ f32Epsilon →
      vello_render_context_set_paint_image (some c) (some img) slot =
        (VELLO_OK, some { c with paint := .image img }, slot)) := by
  constructor
  · intro h
    simp [vello_render_context_set_paint_image, h]
  · intro h
    have hno : ¬(|img.alpha - 1| > f32Epsilon) := not_lt.mpr h
    simp [vello_render_context_set_paint_image, hno]

theorem C6_image_opacity_witness :
    vello_render_context_set_paint_image (some sampleCtx) (some sampleImage) none =
      (VELLO_OK, some { sampleCtx with paint := .image sampleImage }, none) ∧
    vello_render_context_set_paint_image (some sampleCtx)
        (some { sampleImage with alpha := 0 }) none =
      (VELLO_ERROR_INVALID_PARAMETER, some sampleCtx,
        set_last_error msgImageOpacity none) := by
  constructor
  · exact (C6_image_opacity_amended sampleCtx sampleImage none).2
      (by norm_num [sampleImage, f32Epsilon])
  · exact (C6_image_opacity_amended sampleCtx { sampleImage with alpha := 0 } none).1
      (by norm_num [sampleImage, f32Epsilon])

/-- C7 counterexample: on a platform where detection yields no SIMD
level, the boundary tag Neon converts through to_vello_level to the
fallback level, and converting that back through the From impl yields
the Fallback tag, not Neon; so the tag-to-internal-and-back round trip
of the SIMD capability tier is not the identity. -/
theorem C7_simd_roundtrip_counterexample :
    toVelloLevel none VelloSimdLevel.Neon = Level.fallback ∧
    simdLevelFromLevel (toVelloLevel none VelloSimdLevel.Neon) = VelloSimdLevel.Fallback ∧
    VelloSimdLevel.Fallback ≠ VelloSimdLevel.Neon := by
  refine ⟨rfl, by decide, by decide⟩

/-- C7 amended: the join, cap, fill rule and render mode conversions
round-trip in both directions; the blend mix, blend compose, extend and
image quality conversions, of which the source defines only the
boundary-to-internal direction, are bijections, so a total exhaustive
one-to-one correspondence exists; each boundary enumeration maps
injectively to its declared integer tag; but the SIMD capability tier
does not round-trip: to_vello_level sends every non-Fallback tag to the
one detected level regardless of the tag (witness Sse2 against Avx), so
for every detection outcome some tag fails the
tag-to-internal-and-back round trip. -/
theorem C7_enum_roundtrips_amended :
    (∀ x, kurboJoinToVello (joinToKurbo x) = x) ∧
    (∀ y, joinToKurbo (kurboJoinToVello y) = y) ∧
    (∀ x, kurboCapToVello (capToKurbo x) = x) ∧
    (∀ y, capToKurbo (kurboCapToVello y) = y) ∧
    (∀ x, penikoFillToVello (fillRuleToPeniko x) = x) ∧
    (∀ y, fillRuleToPeniko (penikoFillToVello y) = y) ∧
    (∀ x, renderModeToVello (velloToRenderMode x) = x) ∧
    (∀ y, velloToRenderMode (renderModeToVello y) = y) ∧
    Function.Bijective mixToPeniko ∧
    Function.Bijective composeToPeniko ∧
    Function.Bijective extendToPeniko ∧
    Function.Bijective qualityToPeniko ∧
    Function.Injective VelloJoin.tag ∧
    Function.Injective VelloCap.tag ∧
    Function.Injective VelloFillRule.tag ∧
    Function.Injective VelloMix.tag ∧
    Function.Injective VelloCompose.tag ∧
    Function.Injective VelloExtend.tag ∧
    Function.Injective VelloImageQuality.tag ∧
    Function.Injective VelloRenderMode.tag ∧
    Function.Injective VelloSimdLevel.tag ∧
    (∀ d, toVelloLevel d VelloSimdLevel.Sse2 = toVelloLevel d VelloSimdLevel.Avx) ∧
    (∀ d : Option Level, ∃ t, simdLevelFromLevel (toVelloLevel d t) ≠ t) := by
  decide
